import Mathlib

/-!
# Verification of the DevFest wheel-spinner core

Shallow embedding of the repository's spin-synchronization core and of the
session-code / join-flow utilities, with theorems settling the specification
claims about them.

Sources embedded (paraphrased from the TypeScript/JavaScript sources):
* `functions/index.js` — the `spinWheel` cloud function (winner selection,
  rotation math, spin-state write);
* `src/pages/AdminSessionControl.tsx` and `src/pages/Index.tsx` — the
  spin-state `onSnapshot` listener (the client Reconciler) and the
  winner-confirmation path (`processWinner`, `handleCloseWinnerAnnouncement`);
* `src/components/JoinSessionModal.tsx` — duplicate-name disambiguation;
* `src/utils/sessionCode.ts` — `generateSessionCode` / `formatSessionCode`.

Machine integers and JS numbers are modelled as `Nat`/`Int`/`ℚ`; timestamps
are epoch milliseconds as `Int`; JS `null`/`undefined` becomes `Option`.
Strings are modelled over their character lists; `toUpperCase` is modelled on
the ASCII range (the subsequent `[^A-Z0-9]` filter discards every character
the two disagree on for the properties proved here).
-/

namespace WheelSpinner

/-! ## Session-code utilities (`src/utils/sessionCode.ts`) -/

/-- Model of JS `String.prototype.toUpperCase` on one ASCII character:
lower-case `a`–`z` (code points 97–122) map 32 down, everything else is kept. -/
def charUpper (c : Char) : Char :=
  if 97 ≤ c.toNat ∧ c.toNat ≤ 122 then Char.ofNat (c.toNat - 32) else c

/-- Character class kept by the regex replace `[^A-Z0-9]` in
`formatSessionCode`: `A`–`Z` (65–90) or `0`–`9` (48–57). -/
def isCodeChar (c : Char) : Bool :=
  decide ((65 ≤ c.toNat ∧ c.toNat ≤ 90) ∨ (48 ≤ c.toNat ∧ c.toNat ≤ 57))

/-- `formatSessionCode`: `code.toUpperCase().replace(/[^A-Z0-9]/g, '').slice(0, 6)`. -/
def formatSessionCode (code : String) : String :=
  (((code.toList.map charUpper).filter isCodeChar).take 6).asString

/-- The 32-character alphabet of `generateSessionCode`:
`'ABCDEFGHJKLMNPQRSTUVWXYZ23456789'`. -/
def sessionCodeCharacters : List Char :=
  "ABCDEFGHJKLMNPQRSTUVWXYZ23456789".toList

theorem sessionCodeCharacters_length : sessionCodeCharacters.length = 32 := by
  decide

/-- `generateSessionCode`: six characters, each one
`characters.charAt(Math.floor(Math.random() * characters.length))`.
The six random draws are the parameter `pick` (each `Math.floor(random*32)`
lands in `0..31`, i.e. `Fin 32`). -/
def generateSessionCode (pick : Fin 6 → Fin 32) : String :=
  ((List.finRange 6).map
    (fun i => sessionCodeCharacters.get
      (Fin.cast sessionCodeCharacters_length.symm (pick i)))).asString

/-! ## Join-flow duplicate-name disambiguation (`JoinSessionModal.tsx`) -/

/-- Model of JS `String.prototype.trim`: drop whitespace from both ends
(computed on the character list so it evaluates by kernel reduction). -/
def jsTrim (s : String) : String :=
  (((s.toList.dropWhile Char.isWhitespace).reverse.dropWhile
    Char.isWhitespace).reverse).asString

/-- Model of JS `String.prototype.startsWith` (prefix test on characters). -/
def jsStartsWith (s pre : String) : Bool :=
  pre.toList.isPrefixOf s.toList

/-- The name actually stored by `handleJoin`: trim the requested name, count
the existing participants of the session whose stored name STARTS WITH the
trimmed name (`p.name.startsWith(finalName)`), and if that count is positive
append a disambiguating suffix with the count plus one. -/
def computeJoinName (participantName : String) (existingNames : List String) : String :=
  let finalName := jsTrim participantName
  let duplicateCount :=
    (existingNames.filter (fun nm => jsStartsWith nm finalName)).length
  if duplicateCount > 0 then
    finalName ++ " (" ++ toString (duplicateCount + 1) ++ ")"
  else
    finalName

/-! ## The `spinWheel` cloud function (`functions/index.js`)

The callable receives `{ sessionId }` in `request.data` (the caller's auth
token, if any, sits unread in `request.auth`), fetches the session's
participants ordered by `joined_at` ascending, and either throws an
`HttpsError` or writes the new spin-state document
`sessions/{sessionId}/spin_state/current` and returns.

The two `Math.random()` draws are the parameters `r1` (winner selection) and
`r2` (duration variation), each in `[0, 1)`. The fresh `crypto.randomUUID()`
is the parameter `newSpinId`; the server timestamp is `serverNow` (epoch ms).

The function NEVER reads the existing spin-state document before `set()`:
`priorSpinState` is therefore an unused parameter, kept so that theorems can
speak about calls made while a record is active. Likewise `callerAuth` is
unused: the function performs no authorization check. The client response
payload (same fields as the written document, with `duration` rounded for
display) is not modelled separately since no claim refers to it. -/

/-- Participant document as fetched by `spinWheel` (doc id plus data fields). -/
structure ServerParticipant where
  id : String
  participant_id : String
  name : String
  verification_code : String
deriving Repr, DecidableEq

/-- The spin-state document written to
`sessions/{sessionId}/spin_state/current`. -/
structure SpinStateDoc where
  isSpinning : Bool
  winner : ServerParticipant
  rotation : ℚ
  duration : ℚ
  timestamp : Int
  participantCount : Nat
  spinId : String
deriving Repr, DecidableEq

/-- An `HttpsError` thrown by the callable: code and message. -/
structure HttpsError where
  code : String
  message : String
deriving Repr, DecidableEq

/-- `Math.floor(Math.random() * participants.length)` with the random draw
`r1` made explicit. -/
def selectWinnerIndex (r1 : ℚ) (len : Nat) : Nat :=
  (⌊r1 * len⌋).toNat

/-- The rotation written by `spinWheel`:
`segmentAngle = 360 / participants.length`, `baseRotations = 5` (a constant),
`winnerSegmentCenter = winnerIndex * segmentAngle + segmentAngle / 2`,
`targetAngle = 360 - winnerSegmentCenter`,
`finalRotation = baseRotations * 360 + targetAngle`. -/
def spinFinalRotation (len winnerIndex : Nat) : ℚ :=
  let segmentAngle : ℚ := 360 / len
  let baseRotations : ℚ := 5
  let winnerSegmentCenter : ℚ := winnerIndex * segmentAngle + segmentAngle / 2
  let targetAngle : ℚ := 360 - winnerSegmentCenter
  baseRotations * 360 + targetAngle

/-- `duration = baseDuration + durationVariation = 4 + r2 * 1.5` seconds. -/
def spinDurationSeconds (r2 : ℚ) : ℚ :=
  4 + r2 * (3 / 2)

/-- The `spinWheel` callable. Errors, in source order: missing `sessionId` →
`invalid-argument`; empty participant query → `failed-precondition`
("No participants found", the spec's EmptyRoster); an out-of-range winner
index would make `participants[winnerIndex]` undefined in JS and the
subsequent property accesses throw, surfacing as the catch-all `internal`
error. On success the written spin-state document is returned. -/
def spinWheel (_priorSpinState : Option SpinStateDoc) (_callerAuth : Option String)
    (sessionId : Option String) (participants : List ServerParticipant)
    (r1 r2 : ℚ) (newSpinId : String) (serverNow : Int) :
    Except HttpsError SpinStateDoc :=
  match sessionId with
  | none => .error ⟨"invalid-argument", "Session ID is required"⟩
  | some _ =>
    if participants.isEmpty then
      .error ⟨"failed-precondition", "No participants found"⟩
    else
      let winnerIndex := selectWinnerIndex r1 participants.length
      match participants[winnerIndex]? with
      | none => .error ⟨"internal", "Cannot read properties of undefined"⟩
      | some winner =>
        .ok
          { isSpinning := true
            winner := winner
            rotation := spinFinalRotation participants.length winnerIndex
            duration := spinDurationSeconds r2
            timestamp := serverNow
            participantCount := participants.length
            spinId := newSpinId }

/-- Rational remainder modulo 360, for stating angle congruences. -/
def qmod360 (x : ℚ) : ℚ :=
  x - 360 * ⌊x / 360⌋

/-- Concrete participant used by witnesses and counterexamples. -/
def samplePA : ServerParticipant :=
  ⟨"doc-a", "pid-a", "Alice", "1111"⟩

/-- A spin-state record that is still active (`isSpinning = true`). -/
def activeSpinDoc : SpinStateDoc :=
  { isSpinning := true
    winner := samplePA
    rotation := 1935
    duration := 4
    timestamp := 0
    participantCount := 1
    spinId := "spin-old" }

/-- First call of the C1 scenario: `spinWheel` invoked while `activeSpinDoc`
(`isSpinning = true`) is the session's current record. -/
def spinCall1 : Except HttpsError SpinStateDoc :=
  spinWheel (some activeSpinDoc) (some "admin-uid") (some "session-1")
    [samplePA] 0 0 "spin-A" 1000

/-- The record written by the first call (its `ok` payload). -/
def spinDoc1 : SpinStateDoc :=
  spinCall1.toOption.getD activeSpinDoc

/-- Second call of the C1 scenario: `spinWheel` invoked again while the
record just written by the first call is still active. -/
def spinCall2 : Except HttpsError SpinStateDoc :=
  spinWheel (some spinDoc1) (some "admin-uid") (some "session-1")
    [samplePA] 0 0 "spin-B" 1500

/-- Success test for a `spinWheel` result (the write happened iff `ok`). -/
def spinSucceeded (r : Except HttpsError SpinStateDoc) : Bool :=
  r.toOption.isSome

/-! ## The client Reconciler: the spin-state `onSnapshot` listener
(`AdminSessionControl.tsx`; `Index.tsx` runs the identical logic minus the
`winnerParticipant` field)

The listener body runs on each delivered snapshot of
`sessions/{sessionId}/spin_state/current` (after the `snapshot.exists()`
guard, so the model takes the snapshot data directly). JS truthiness of the
`spinId` string (absent or empty is falsy) and of the `timestamp` object is
modelled explicitly; `Date.now()` at delivery is the parameter `now`. -/

/-- Snapshot data of the spin-state document as read by the listener. -/
structure SpinSnapshot where
  spinId : Option String
  timestamp : Option Int
  isSpinning : Bool
  winner : Option ServerParticipant
  duration : ℚ
  rotation : ℚ
deriving Repr, DecidableEq

/-- The component state the listener reads and writes (`useState` hooks). -/
structure ListenerState where
  isSpinning : Bool
  winner : Option String
  winnerParticipant : Option ServerParticipant
  spinDuration : ℚ
  finalRotation : Option ℚ
  lastProcessedSpinId : Option String
deriving Repr, DecidableEq

/-- JS truthiness of a nullable string: null/undefined and "" are falsy. -/
def truthyStr : Option String → Bool
  | none => false
  | some s => !(s == "")

/-- `spinData.timestamp && (Date.now() - spinData.timestamp.toMillis()) < 30000`. -/
def isRecent (now : Int) (ts : Option Int) : Bool :=
  match ts with
  | none => false
  | some t => decide (now - t < 30000)

/-- `spinData.winner?.name || null` (an empty name string is also falsy). -/
def winnerNameOrNull (w : Option ServerParticipant) : Option String :=
  match w with
  | none => none
  | some p => if p.name = "" then none else some p.name

/-- One firing of the spin-state `onSnapshot` listener. Returns the updated
component state and, when a `setTimeout` for the winner reveal was scheduled,
the delay in milliseconds (`spinData.duration * 1000 + 500`).

Branch 1 (`isNewSpin && isRecentSpin`): adopt the whole snapshot into local
state, remember the `spinId`, and if `isSpinning` schedule the reveal.
Branch 2 (`!lastProcessedSpinId && spinData.spinId`): first load — store the
`spinId` and the record's fields but leave `isSpinning` untouched so no
animation starts. Otherwise: no-op. -/
def onSpinSnapshot (st : ListenerState) (d : SpinSnapshot) (now : Int) :
    ListenerState × Option ℚ :=
  let isNewSpin := truthyStr d.spinId && (d.spinId != st.lastProcessedSpinId)
  let isRecentSpin := isRecent now d.timestamp
  if isNewSpin && isRecentSpin then
    ({ isSpinning := d.isSpinning
       winner := winnerNameOrNull d.winner
       winnerParticipant := d.winner
       spinDuration := d.duration
       finalRotation := some d.rotation
       lastProcessedSpinId := d.spinId },
     if d.isSpinning then some (d.duration * 1000 + 500) else none)
  else if !truthyStr st.lastProcessedSpinId && truthyStr d.spinId then
    ({ st with
       winner := winnerNameOrNull d.winner
       winnerParticipant := d.winner
       spinDuration := d.duration
       finalRotation := some d.rotation
       lastProcessedSpinId := d.spinId }, none)
  else
    (st, none)

/-- The default component state on mount: not spinning, no winner, duration
4, no rotation, no processed spin id. -/
def initialListenerState : ListenerState :=
  { isSpinning := false
    winner := none
    winnerParticipant := none
    spinDuration := 4
    finalRotation := none
    lastProcessedSpinId := none }

/-- A snapshot of a 4-second spin published at time 0, as delivered to a
late joiner. -/
def midSpinSnap : SpinSnapshot :=
  { spinId := some "spin-1"
    timestamp := some 0
    isSpinning := true
    winner := some samplePA
    duration := 4
    rotation := 1935 }

/-! ## The winner-confirmation path (`AdminSessionControl.tsx`)

`processWinner` appends a draw document and deletes the winner's participant
document; `handleCloseWinnerAnnouncement` closes the dialog, no-ops when no
winner is pending, and otherwise processes the winner and clears the local
spin/winner state. The Firestore writes are modelled as pure list updates on
the session's draws and participants (their success path). -/

/-- A draw document as written to the `draws` collection. -/
structure DrawDoc where
  session_id : String
  winner_participant_id : String
  winner_name : String
  winner_verification_code : String
  is_re_spin : Bool
deriving Repr, DecidableEq

/-- The admin page state the confirmation path touches: the session's draw
documents and participant documents plus the local React state. -/
structure AdminPageState where
  draws : List DrawDoc
  participants : List ServerParticipant
  winnerParticipant : Option ServerParticipant
  showWinnerAnnouncement : Bool
  showConfetti : Bool
  isSpinning : Bool
  winner : Option String
deriving Repr, DecidableEq

/-- `processWinner`: `addDoc` one draw (with `is_re_spin: false`), then
`deleteDoc` the winner's participant document (unique doc id). -/
def processWinner (sessionId : String) (draws : List DrawDoc)
    (participants : List ServerParticipant) (w : ServerParticipant) :
    List DrawDoc × List ServerParticipant :=
  (draws ++ [⟨sessionId, w.participant_id, w.name, w.verification_code, false⟩],
   participants.filter (fun p => p.id != w.id))

/-- `handleCloseWinnerAnnouncement`: close the dialog; return early when
`winnerParticipant` is null; otherwise process the winner and clear the
confetti/spin/winner state (including `winnerParticipant` itself, which is
what makes a second invocation a no-op). -/
def handleCloseWinnerAnnouncement (sessionId : String) (st : AdminPageState) :
    AdminPageState :=
  let st1 := { st with showWinnerAnnouncement := false }
  match st1.winnerParticipant with
  | none => st1
  | some w =>
    let processed := processWinner sessionId st1.draws st1.participants w
    { st1 with
      draws := processed.1
      participants := processed.2
      showConfetti := false
      isSpinning := false
      winner := none
      winnerParticipant := none }

/-- A pending-confirmation state used by the C5 witness: the spin finished,
the dialog shows `samplePA` as winner, nothing recorded yet. -/
def confirmSampleState : AdminPageState :=
  { draws := []
    participants := [samplePA]
    winnerParticipant := some samplePA
    showWinnerAnnouncement := true
    showConfetti := true
    isSpinning := true
    winner := some "Alice" }

/-! ## Lemmas on the session-code utilities -/

theorem charUpper_fixed (c : Char) (h : isCodeChar c = true) : charUpper c = c := by
  unfold isCodeChar at h
  rw [decide_eq_true_eq] at h
  unfold charUpper
  have hcond : ¬ (97 ≤ c.toNat ∧ c.toNat ≤ 122) := by omega
  simp [hcond]

theorem map_charUpper_of_all (l : List Char) (h : ∀ c ∈ l, isCodeChar c = true) :
    l.map charUpper = l := by
  induction l with
  | nil => rfl
  | cons a t ih =>
    simp only [List.map_cons]
    rw [charUpper_fixed a (h a (by simp)), ih (fun c hc => h c (by simp [hc]))]

theorem formatSessionCode_toList (s : String) :
    (formatSessionCode s).toList
      = ((s.toList.map charUpper).filter isCodeChar).take 6 := rfl

theorem formatSessionCode_all_code (s : String) :
    ∀ c ∈ (formatSessionCode s).toList, isCodeChar c = true := by
  intro c hc
  rw [formatSessionCode_toList] at hc
  exact List.of_mem_filter (List.take_subset _ _ hc)

theorem formatSessionCode_of_code_chars (l : List Char)
    (hall : ∀ c ∈ l, isCodeChar c = true) (hlen : l.length ≤ 6) :
    formatSessionCode l.asString = l.asString := by
  unfold formatSessionCode
  have h1 : (l.asString.toList) = l := rfl
  rw [h1, map_charUpper_of_all l hall, List.filter_eq_self.mpr hall,
    List.take_of_length_le hlen]

/-- Claim C10: `formatSessionCode` is idempotent and normalizing — for every
input string the result contains only characters `A`–`Z` and `0`–`9`, has
length at most 6, and is a fixed point of `formatSessionCode`; and every code
produced by `generateSessionCode` (six characters from the fixed 32-character
alphabet) is itself a fixed point of `formatSessionCode`. -/
theorem c10_formatSessionCode_normalizing :
    ∀ (s : String) (pick : Fin 6 → Fin 32),
      ((formatSessionCode s).toList.all isCodeChar = true)
      ∧ (formatSessionCode s).length ≤ 6
      ∧ formatSessionCode (formatSessionCode s) = formatSessionCode s
      ∧ formatSessionCode (generateSessionCode pick) = generateSessionCode pick := by
  intro s pick
  refine ⟨?_, ?_, ?_, ?_⟩
  · rw [List.all_eq_true]
    exact formatSessionCode_all_code s
  · show (formatSessionCode s).toList.length ≤ 6
    rw [formatSessionCode_toList, List.length_take]
    exact min_le_left _ _
  · have hall := formatSessionCode_all_code s
    have hlen : (formatSessionCode s).toList.length ≤ 6 := by
      rw [formatSessionCode_toList, List.length_take]
      exact min_le_left _ _
    have : formatSessionCode ((formatSessionCode s).toList.asString)
        = (formatSessionCode s).toList.asString :=
      formatSessionCode_of_code_chars _ hall hlen
    simpa using this
  · unfold generateSessionCode
    apply formatSessionCode_of_code_chars
    · intro c hc
      rw [List.mem_map] at hc
      obtain ⟨i, _, rfl⟩ := hc
      have halpha : ∀ j : Fin 32,
          isCodeChar (sessionCodeCharacters.get
            (Fin.cast sessionCodeCharacters_length.symm j)) = true := by decide
      exact halpha (pick i)
    · simp

/-- Claim C9: when the trimmed requested name has exactly `k ≥ 1` stored
participant names starting with it, the stored name is the trimmed name with
suffix `" (k+1)"`; with zero such prefix matches the trimmed name is stored
unchanged. Prefix matching (not equality) decides the count. -/
theorem c9_join_name_disambiguation :
    ∀ (participantName : String) (existingNames : List String) (k : Nat),
      (existingNames.filter
        (fun nm => jsStartsWith nm (jsTrim participantName))).length = k →
      (1 ≤ k →
        computeJoinName participantName existingNames
          = jsTrim participantName ++ " (" ++ toString (k + 1) ++ ")")
      ∧ (k = 0 →
        computeJoinName participantName existingNames = jsTrim participantName) := by
  intro participantName existingNames k hk
  simp only [computeJoinName, hk]
  constructor
  · intro h1
    have : k > 0 := h1
    simp [this]
  · intro h0
    rw [h0]
    simp

/-- Witness for C9 at a concrete input: joining as `"John"` while only
`"Johnny"` is stored (a proper prefix match, not an equal name) yields the
suffixed name `"John (2)"`. -/
theorem c9_join_name_witness :
    ((["Johnny"].filter (fun nm => jsStartsWith nm (jsTrim "John"))).length = 1)
    ∧ computeJoinName "John" ["Johnny"]
        = jsTrim "John" ++ " (" ++ toString (1 + 1) ++ ")"
    ∧ jsTrim "John" ++ " (" ++ toString (1 + 1) ++ ")" = "John (2)" :=
  ⟨by decide,
   (c9_join_name_disambiguation "John" ["Johnny"] 1 (by decide)).1 (by decide),
   by decide⟩

/-! ## Theorems on the `spinWheel` function -/

theorem isEmpty_false_of_ne_nil {α : Type} {l : List α} (h : l ≠ []) :
    l.isEmpty = false := by
  cases l with
  | nil => exact absurd rfl h
  | cons a t => rfl

theorem spinFinalRotation_four_two : spinFinalRotation 4 2 = 1935 := by
  simp only [spinFinalRotation]
  norm_num

/-- Evaluation of `spinWheel` on a one-participant roster with `r1 = 0`:
the call succeeds and writes the singleton-winner record, whatever the prior
spin state and the caller's auth. -/
theorem spinWheel_singleton (prior : Option SpinStateDoc) (auth : Option String)
    (sid : String) (p : ServerParticipant) (r2 : ℚ) (nid : String) (now : Int) :
    spinWheel prior auth (some sid) [p] 0 r2 nid now
      = .ok
        { isSpinning := true
          winner := p
          rotation := spinFinalRotation 1 0
          duration := spinDurationSeconds r2
          timestamp := now
          participantCount := 1
          spinId := nid } := by
  have h : selectWinnerIndex 0 1 = 0 := by
    unfold selectWinnerIndex
    norm_num
  simp [spinWheel, h]

theorem selectWinnerIndex_lt (r1 : ℚ) (len : Nat) (hlen : 0 < len)
    (h0 : 0 ≤ r1) (h1 : r1 < 1) : selectWinnerIndex r1 len < len := by
  unfold selectWinnerIndex
  have hlenQ : (0 : ℚ) < (len : ℚ) := by exact_mod_cast hlen
  have hfl : ⌊r1 * (len : ℚ)⌋ < (len : ℤ) := by
    rw [Int.floor_lt]
    push_cast
    calc r1 * (len : ℚ) < 1 * (len : ℚ) := mul_lt_mul_of_pos_right h1 hlenQ
      _ = (len : ℚ) := one_mul _
  have hnn : 0 ≤ ⌊r1 * (len : ℚ)⌋ :=
    Int.floor_nonneg.mpr (mul_nonneg h0 (le_of_lt hlenQ))
  omega

/-- Claim C1 counterexample: with an active record (`isSpinning = true`)
present, a `spinWheel` call succeeds instead of failing with AlreadySpinning,
and a second call made while the record written by the first is still active
succeeds as well — two consecutive calls during an active spin both succeed. -/
theorem c1_already_spinning_counterexample :
    spinSucceeded spinCall1 = true
    ∧ spinDoc1.isSpinning = true
    ∧ spinSucceeded spinCall2 = true := by
  have h1 := spinWheel_singleton (some activeSpinDoc) (some "admin-uid")
    "session-1" samplePA 0 "spin-A" 1000
  have h2 := spinWheel_singleton (some spinDoc1) (some "admin-uid")
    "session-1" samplePA 0 "spin-B" 1500
  refine ⟨?_, ?_, ?_⟩
  · unfold spinSucceeded spinCall1
    rw [h1]
    rfl
  · unfold spinDoc1 spinCall1
    rw [h1]
    rfl
  · unfold spinSucceeded spinCall2
    rw [h2]
    rfl

/-- Claim C1 amended: the spin state is kept in one singleton document per
session, so at most one record exists at a time, but `spinWheel` performs no
AlreadySpinning check — it never reads the prior record, and every call with
a session id and a non-empty roster succeeds, unconditionally overwriting the
record; in particular its result is entirely independent of the prior record. -/
theorem c1_no_already_spinning_guard :
    ∀ (prior : Option SpinStateDoc) (auth : Option String) (sid : String)
      (participants : List ServerParticipant) (r1 r2 : ℚ) (newSpinId : String)
      (serverNow : Int),
      participants ≠ [] → 0 ≤ r1 → r1 < 1 →
      spinSucceeded
        (spinWheel prior auth (some sid) participants r1 r2 newSpinId serverNow)
        = true
      ∧ spinWheel prior auth (some sid) participants r1 r2 newSpinId serverNow
        = spinWheel none auth (some sid) participants r1 r2 newSpinId serverNow := by
  intro prior auth sid parts r1 r2 nid now hne h0 h1
  refine ⟨?_, rfl⟩
  have hemp : parts.isEmpty = false := isEmpty_false_of_ne_nil hne
  have hidx : selectWinnerIndex r1 parts.length < parts.length :=
    selectWinnerIndex_lt r1 parts.length (List.length_pos.mpr hne) h0 h1
  simp only [spinWheel, hemp, Bool.false_eq_true, if_false,
    List.getElem?_eq_getElem hidx]
  rfl

/-- Witness for the amended C1 at a concrete input: a call made while
`activeSpinDoc` (`isSpinning = true`) is current still succeeds. -/
theorem c1_no_guard_witness :
    ([samplePA] ≠ ([] : List ServerParticipant))
    ∧ spinSucceeded
        (spinWheel (some activeSpinDoc) (some "admin-uid") (some "session-1")
          [samplePA] 0 0 "spin-A" 1000) = true :=
  ⟨by decide,
   (c1_no_already_spinning_guard (some activeSpinDoc) (some "admin-uid")
      "session-1" [samplePA] 0 0 "spin-A" 1000 (by decide) (by norm_num)
      (by norm_num)).1⟩

/-- Claim C2 evaluated at its failing input: `spinWheel` called with NO auth
token (`callerAuth = none`) on a valid session with a non-empty roster
succeeds and writes the record — it does not fail with Unauthorized — and the
result is identical to the one an admin caller gets: the function performs no
authorization check at all. -/
theorem c2_unauthenticated_spin_succeeds :
    spinSucceeded
      (spinWheel none none (some "session-1") [samplePA] 0 0 "spin-A" 0) = true
    ∧ spinWheel none none (some "session-1") [samplePA] 0 0 "spin-A" 0
      = spinWheel none (some "admin-uid") (some "session-1")
          [samplePA] 0 0 "spin-A" 0 := by
  refine ⟨?_, rfl⟩
  unfold spinSucceeded
  rw [spinWheel_singleton none none "session-1" samplePA 0 "spin-A" 0]
  rfl

theorem qmod360_add_five_rots (x : ℚ) : qmod360 (x + 5 * 360) = qmod360 x := by
  unfold qmod360
  have h : (x + 5 * 360) / 360 = x / 360 + ((5 : ℤ) : ℚ) := by
    push_cast
    ring
  rw [h, Int.floor_add_int]
  push_cast
  ring

/-- Claim C3: for every roster size `n ≥ 1` and winner index `i < n`, the
rotation written by `spinWheel` satisfies
`targetAngle mod 360 = (360 - (i*360/n + 180/n)) mod 360` — the winner's
segment midpoint is aligned with the fixed pointer at 0 degrees, up to the
five full rotations. -/
theorem c3_winner_angle_alignment :
    ∀ (n i : Nat), 1 ≤ n → i < n →
      qmod360 (spinFinalRotation n i)
        = qmod360 (360 - ((i : ℚ) * 360 / n + 180 / n)) := by
  intro n i hn hi
  have harg : spinFinalRotation n i
      = (360 - ((i : ℚ) * 360 / n + 180 / n)) + 5 * 360 := by
    simp only [spinFinalRotation]
    ring
  rw [harg, qmod360_add_five_rots]

/-- Witness for C3 at the concrete roster size 4 with winner index 2: both
sides of the congruence evaluate to 135 degrees. -/
theorem c3_winner_angle_witness :
    (1 ≤ 4) ∧ (2 < 4)
    ∧ qmod360 (spinFinalRotation 4 2)
        = qmod360 (360 - ((2 : ℚ) * 360 / 4 + 180 / 4))
    ∧ qmod360 (spinFinalRotation 4 2) = 135 :=
  ⟨by norm_num, by norm_num,
   c3_winner_angle_alignment 4 2 (by norm_num) (by norm_num),
   by rw [spinFinalRotation_four_two]; unfold qmod360; norm_num⟩

/-- Claim C6: with a session id present, an empty participant list makes
`spinWheel` fail with the `failed-precondition` ("No participants found")
error before anything is written, and with a non-empty list that error is
never produced. -/
theorem c6_empty_roster_rejected :
    ∀ (prior : Option SpinStateDoc) (auth : Option String) (sid : String)
      (participants : List ServerParticipant) (r1 r2 : ℚ) (newSpinId : String)
      (serverNow : Int),
      (participants = [] →
        spinWheel prior auth (some sid) participants r1 r2 newSpinId serverNow
          = .error ⟨"failed-precondition", "No participants found"⟩)
      ∧ (participants ≠ [] →
        ∀ e, spinWheel prior auth (some sid) participants r1 r2 newSpinId
            serverNow = .error e →
          e.code ≠ "failed-precondition") := by
  intro prior auth sid parts r1 r2 nid now
  constructor
  · intro h
    subst h
    rfl
  · intro hne e
    have hemp : parts.isEmpty = false := isEmpty_false_of_ne_nil hne
    simp only [spinWheel, hemp, Bool.false_eq_true, if_false]
    cases hget : parts[selectWinnerIndex r1 parts.length]? with
    | none =>
      intro he
      injection he with hinj
      rw [← hinj]
      decide
    | some w =>
      intro he
      exact Except.noConfusion he

/-- Witness for C6 at a concrete input: the empty roster produces exactly the
`failed-precondition` error. -/
theorem c6_empty_roster_witness :
    spinWheel none none (some "session-1") [] 0 0 "spin-A" 0
      = .error ⟨"failed-precondition", "No participants found"⟩ :=
  (c6_empty_roster_rejected none none "session-1" [] 0 0 "spin-A" 0).1 rfl

/-- Claim C8 counterexample: for the 4-participant roster with winner index 2
the rotation computed by `spinWheel` is 1935 degrees, not the 1575 the claim
derives from a drawn `k = 4` — the number of full rotations is not drawn from
a range at all. -/
theorem c8_scenario_counterexample :
    spinFinalRotation 4 2 ≠ 1575 ∧ spinFinalRotation 4 2 = 1935 := by
  rw [spinFinalRotation_four_two]
  norm_num

/-- Claim C8 amended: `baseRotations` is the constant 5 (never drawn), so for
roster `[A,B,C,D]` with winner index 2: `segmentAngle = 90`, winner midpoint
`= 2*90+45 = 225`, base offset `= 360-225 = 135`, and the rotation is exactly
`5*360 + 135 = 1935`. -/
theorem c8_scenario_fixed_five_rotations :
    (360 : ℚ) / 4 = 90
    ∧ spinFinalRotation 4 2 = 5 * 360 + (360 - (2 * 90 + 45))
    ∧ spinFinalRotation 4 2 = 1935 := by
  rw [spinFinalRotation_four_two]
  norm_num

/-! ## Theorems on the listener (Reconciler) -/

theorem truthyStr_of_ne (x : String) (hx : x ≠ "") :
    truthyStr (some x) = true := by
  simp [truthyStr, hx]

theorem onSpinSnapshot_noop_of_seen (st : ListenerState) (d : SpinSnapshot)
    (now : Int) (x : String) (hx : d.spinId = some x)
    (hseen : st.lastProcessedSpinId = some x) :
    onSpinSnapshot st d now = (st, none) := by
  simp only [onSpinSnapshot, hx, hseen, bne_self_eq_false, Bool.and_false,
    Bool.false_and, if_false, Bool.false_eq_true]
  have : (!truthyStr (some x) && truthyStr (some x)) = false := by
    cases truthyStr (some x) <;> rfl
  simp [this]

theorem onSpinSnapshot_first_recent (st : ListenerState) (d : SpinSnapshot)
    (now : Int) (x : String) (t : Int) (hlast : st.lastProcessedSpinId = none)
    (hx : d.spinId = some x) (hxne : x ≠ "") (ht : d.timestamp = some t)
    (hrec : now - t < 30000) :
    onSpinSnapshot st d now
      = ({ isSpinning := d.isSpinning
           winner := winnerNameOrNull d.winner
           winnerParticipant := d.winner
           spinDuration := d.duration
           finalRotation := some d.rotation
           lastProcessedSpinId := d.spinId },
         if d.isSpinning then some (d.duration * 1000 + 500) else none) := by
  have h1 : truthyStr d.spinId = true := by
    rw [hx]
    exact truthyStr_of_ne x hxne
  have h2 : (d.spinId != st.lastProcessedSpinId) = true := by
    rw [hx, hlast]
    rfl
  have h3 : isRecent now d.timestamp = true := by
    rw [ht]
    simp [isRecent, hrec]
  simp [onSpinSnapshot, h1, h2, h3]

/-- Claim C7: a snapshot whose `spinId` equals the last-seen one is a no-op
(state unchanged, no reveal scheduled); and after any delivery of a snapshot,
redelivering the very same snapshot later changes nothing and schedules no
second animation — the same `SpinRecord` never produces two animation
cycles. -/
theorem c7_duplicate_spinId_noop :
    ∀ (st : ListenerState) (d : SpinSnapshot) (x : String) (t1 t2 : Int),
      d.spinId = some x → x ≠ "" → t1 ≤ t2 →
      (st.lastProcessedSpinId = some x → onSpinSnapshot st d t1 = (st, none))
      ∧ onSpinSnapshot (onSpinSnapshot st d t1).1 d t2
          = ((onSpinSnapshot st d t1).1, none) := by
  intro st d x t1 t2 hx hxne ht12
  have htr : truthyStr d.spinId = true := by
    rw [hx]
    exact truthyStr_of_ne x hxne
  have hxtr : truthyStr (some x) = true := truthyStr_of_ne x hxne
  refine ⟨fun hseen => onSpinSnapshot_noop_of_seen st d t1 x hx hseen, ?_⟩
  by_cases hnew : (d.spinId != st.lastProcessedSpinId) = true
  · have hne' : ¬ (some x = st.lastProcessedSpinId) := by
      have hne := bne_iff_ne.mp hnew
      rw [hx] at hne
      exact hne
    by_cases hrec1 : isRecent t1 d.timestamp = true
    · have hres : (onSpinSnapshot st d t1).1.lastProcessedSpinId = some x := by
        simp [onSpinSnapshot, htr, hnew, hrec1, hx, hxtr, hne']
      exact onSpinSnapshot_noop_of_seen _ d t2 x hx hres
    · by_cases hl : truthyStr st.lastProcessedSpinId = true
      · have h1 : onSpinSnapshot st d t1 = (st, none) := by
          simp [onSpinSnapshot, hrec1, hl]
        have hrec2 : ¬ isRecent t2 d.timestamp = true := by
          cases hts : d.timestamp with
          | none => simp [isRecent, hts]
          | some u =>
            simp [isRecent, hts] at hrec1 ⊢
            omega
        rw [h1]
        simp [onSpinSnapshot, hrec2, hl]
      · have hres : (onSpinSnapshot st d t1).1.lastProcessedSpinId = some x := by
          simp [onSpinSnapshot, hrec1, hl, htr, hx, hxtr]
        exact onSpinSnapshot_noop_of_seen _ d t2 x hx hres
  · have hlast : st.lastProcessedSpinId = some x := by
      have heq : d.spinId = st.lastProcessedSpinId := by
        have := Bool.of_not_eq_true hnew
        simpa [bne_eq_false_iff_eq] using this
      rw [← heq, hx]
    have h1 := onSpinSnapshot_noop_of_seen st d t1 x hx hlast
    rw [h1]
    exact onSpinSnapshot_noop_of_seen st d t2 x hx hlast

/-- Witness for C7 at a concrete input: a duplicate delivery of the already
processed spin id `"s1"` leaves the state untouched and schedules nothing. -/
theorem c7_duplicate_witness :
    onSpinSnapshot
        { initialListenerState with lastProcessedSpinId := some "spin-1" }
        midSpinSnap 1000
      = ({ initialListenerState with lastProcessedSpinId := some "spin-1" },
         none) :=
  (c7_duplicate_spinId_noop
      { initialListenerState with lastProcessedSpinId := some "spin-1" }
      midSpinSnap "spin-1" 1000 1000 rfl (by decide) (le_refl 1000)).1 rfl

/-- Claim C4 counterexample: a Reconciler whose FIRST snapshot arrives 2
seconds into a 4-second spin does animate, but with the FULL 4-second
duration and a reveal scheduled 4500 ms after receipt — not the claimed
remaining duration of 2 seconds. -/
theorem c4_catchup_counterexample :
    (onSpinSnapshot initialListenerState midSpinSnap 2000).1.isSpinning = true
    ∧ (onSpinSnapshot initialListenerState midSpinSnap 2000).1.spinDuration = 4
    ∧ (onSpinSnapshot initialListenerState midSpinSnap 2000).1.spinDuration
        ≠ 4 - 2
    ∧ (onSpinSnapshot initialListenerState midSpinSnap 2000).2 = some 4500 := by
  have h := onSpinSnapshot_first_recent initialListenerState midSpinSnap 2000
    "spin-1" 0 rfl rfl (by decide) rfl (by norm_num)
  rw [h]
  refine ⟨rfl, rfl, ?_, ?_⟩
  · norm_num [midSpinSnap]
  · show (if midSpinSnap.isSpinning then
      some (midSpinSnap.duration * 1000 + 500) else none) = some 4500
    norm_num [midSpinSnap]

/-- Claim C4 amended: on the first snapshot ever received (no remembered
`spinId`) of an active spin whose `publishedAt` lies within the 30-second
freshness window, the Reconciler starts a fresh FULL-length animation — it
adopts the record wholesale, animates for the full `durationSeconds`, and
schedules the reveal `durationSeconds + 0.5s` after local receipt; no
remaining-time catch-up is computed. -/
theorem c4_first_snapshot_full_animation :
    ∀ (st : ListenerState) (d : SpinSnapshot) (x : String) (t now : Int),
      st.lastProcessedSpinId = none → d.spinId = some x → x ≠ "" →
      d.timestamp = some t → now - t < 30000 → d.isSpinning = true →
      onSpinSnapshot st d now
        = ({ isSpinning := true
             winner := winnerNameOrNull d.winner
             winnerParticipant := d.winner
             spinDuration := d.duration
             finalRotation := some d.rotation
             lastProcessedSpinId := some x },
           some (d.duration * 1000 + 500)) := by
  intro st d x t now hlast hx hxne ht hrec hspin
  rw [onSpinSnapshot_first_recent st d now x t hlast hx hxne ht hrec, hspin, hx]
  simp

/-- Witness for the amended C4 at a concrete input: the first snapshot, 2
seconds into the 4-second spin, yields the full-duration animating state. -/
theorem c4_full_animation_witness :
    onSpinSnapshot initialListenerState midSpinSnap 2000
      = ({ isSpinning := true
           winner := winnerNameOrNull midSpinSnap.winner
           winnerParticipant := midSpinSnap.winner
           spinDuration := midSpinSnap.duration
           finalRotation := some midSpinSnap.rotation
           lastProcessedSpinId := some "spin-1" },
         some (midSpinSnap.duration * 1000 + 500)) :=
  c4_first_snapshot_full_animation initialListenerState midSpinSnap "spin-1"
    0 2000 rfl rfl (by decide) rfl (by norm_num) rfl

/-! ## Theorems on the winner-confirmation path -/

theorem length_filter_ne_of_countP_one (l : List ServerParticipant)
    (w : ServerParticipant) (h : l.countP (fun p => p.id == w.id) = 1) :
    (l.filter (fun p => p.id != w.id)).length + 1 = l.length := by
  induction l with
  | nil => simp at h
  | cons a t ih =>
    rw [List.countP_cons] at h
    rw [List.filter_cons]
    by_cases ha : (a.id == w.id) = true
    · rw [if_pos ha] at h
      have hth : t.countP (fun p => p.id == w.id) = 0 := by omega
      have hf : (a.id != w.id) = false := by simp [bne, ha]
      rw [if_neg (by simp [hf])]
      have hkeep : t.filter (fun p => p.id != w.id) = t := by
        rw [List.filter_eq_self]
        intro b hb
        rw [List.countP_eq_zero] at hth
        have hb0 := hth b hb
        have hf2 : (b.id == w.id) = false := by
          cases hv : (b.id == w.id) with
          | true => exact absurd (by simpa using hv) hb0
          | false => rfl
        simp [bne, hf2]
      rw [hkeep]
      simp
    · rw [if_neg ha] at h
      have hth : t.countP (fun p => p.id == w.id) = 1 := by omega
      have hf : (a.id == w.id) = false := by
        cases hv : (a.id == w.id) with
        | true => exact absurd hv ha
        | false => rfl
      rw [if_pos (show (a.id != w.id) = true by simp [bne, hf])]
      have hlen := ih hth
      simp only [List.length_cons]
      omega

/-- Claim C5: confirming the same winner twice in a row records exactly one
draw document and removes exactly one participant; the second invocation is
a complete no-op because `winnerParticipant` was cleared by the first. -/
theorem c5_confirm_winner_idempotent :
    ∀ (sessionId : String) (st : AdminPageState) (w : ServerParticipant),
      st.winnerParticipant = some w →
      st.participants.countP (fun p => p.id == w.id) = 1 →
      ((handleCloseWinnerAnnouncement sessionId st).draws.length
          = st.draws.length + 1)
      ∧ ((handleCloseWinnerAnnouncement sessionId st).participants.length + 1
          = st.participants.length)
      ∧ handleCloseWinnerAnnouncement sessionId
          (handleCloseWinnerAnnouncement sessionId st)
        = handleCloseWinnerAnnouncement sessionId st := by
  intro sid st w hw hcount
  have hfirst : handleCloseWinnerAnnouncement sid st
      = { st with
          showWinnerAnnouncement := false
          draws := st.draws
            ++ [⟨sid, w.participant_id, w.name, w.verification_code, false⟩]
          participants := st.participants.filter (fun p => p.id != w.id)
          showConfetti := false
          isSpinning := false
          winner := none
          winnerParticipant := none } := by
    simp [handleCloseWinnerAnnouncement, hw, processWinner]
  refine ⟨?_, ?_, ?_⟩
  · rw [hfirst]
    simp
  · rw [hfirst]
    exact length_filter_ne_of_countP_one st.participants w hcount
  · rw [hfirst]
    rfl

/-- Witness for C5 at a concrete input: confirming `samplePA` from the
pending state records one draw, removes the one participant, and a second
confirmation changes nothing. -/
theorem c5_confirm_witness :
    ((handleCloseWinnerAnnouncement "session-1" confirmSampleState).draws.length
        = confirmSampleState.draws.length + 1)
    ∧ ((handleCloseWinnerAnnouncement "session-1"
          confirmSampleState).participants.length + 1
        = confirmSampleState.participants.length)
    ∧ handleCloseWinnerAnnouncement "session-1"
        (handleCloseWinnerAnnouncement "session-1" confirmSampleState)
      = handleCloseWinnerAnnouncement "session-1" confirmSampleState :=
  c5_confirm_winner_idempotent "session-1" confirmSampleState samplePA rfl
    (by decide)

end WheelSpinner
